import Mathlib

/-!
Shallow embedding of the quantana telemetry core: the drift/health scoring
engine (EMA baseline, residual z-scores, weighted composite score), the
stochastic point generator, and the alert rules, together with proofs of the
specification claims about them.

Numbers: the source is JavaScript, whose numbers are IEEE doubles (a subset of
the rationals).  Code paths that stay inside field arithmetic are embedded
over the rationals, which keeps them executable; the drift scoring path uses a
square root and is embedded over the reals.
-/

namespace Quantana

/-- The eight metric keys of a telemetry sample (source: MetricKey / KEYS). -/
inductive MetricKey
  | t1
  | t2
  | gate1q
  | gate2q
  | readout
  | temp
  | vibration
  | em
deriving DecidableEq, Repr

/-- The fixed iteration order of the metric keys (source: KEYS). -/
def KEYS : List MetricKey :=
  [MetricKey.t1, MetricKey.t2, MetricKey.gate1q, MetricKey.gate2q,
   MetricKey.readout, MetricKey.temp, MetricKey.vibration, MetricKey.em]

/-- A telemetry sample (source: Point).  The numeric carrier is a parameter:
rationals for the generator / health / alert paths, reals for drift scoring. -/
structure Point (α : Type) where
  ts : α
  label : String
  t1 : α
  t2 : α
  gate1q : α
  gate2q : α
  readout : α
  temp : α
  vibration : α
  em : α
deriving DecidableEq, Repr

/-- Dynamic metric lookup, the embedding of the dynamic key access in the source. -/
def Point.metric {α : Type} (p : Point α) : MetricKey → α
  | MetricKey.t1 => p.t1
  | MetricKey.t2 => p.t2
  | MetricKey.gate1q => p.gate1q
  | MetricKey.gate2q => p.gate2q
  | MetricKey.readout => p.readout
  | MetricKey.temp => p.temp
  | MetricKey.vibration => p.vibration
  | MetricKey.em => p.em

/-- Alert severities (source: Alert severity field). -/
inductive Severity
  | info
  | warn
  | critical
deriving DecidableEq, Repr

/-- Source: clamp = (x, lo, hi) => Math.max(lo, Math.min(hi, x)). -/
def clamp {α : Type*} [LinearOrder α] (x lo hi : α) : α :=
  max lo (min hi x)

/-- Source: round = (x, d) => Math.round(x * 10 ** d) / 10 ** d, with
Math.round(y) = floor(y + 1/2). -/
def roundTo (x : ℚ) (d : ℕ) : ℚ :=
  ((⌊x * 10 ^ d + 1 / 2⌋ : ℤ) : ℚ) / 10 ^ d

lemma le_clamp {α : Type*} [LinearOrder α] (x lo hi : α) : lo ≤ clamp x lo hi :=
  le_max_left _ _

lemma clamp_le {α : Type*} [LinearOrder α] {lo hi : α} (x : α) (h : lo ≤ hi) :
    clamp x lo hi ≤ hi :=
  max_le h (min_le_left _ _)

lemma roundTo_mono (d : ℕ) {x y : ℚ} (h : x ≤ y) : roundTo x d ≤ roundTo y d := by
  unfold roundTo
  have hp : (0 : ℚ) < 10 ^ d := by positivity
  gcongr

lemma roundTo_intValue (d : ℕ) (n : ℤ) {x : ℚ} (hx : x * 10 ^ d = (n : ℚ)) :
    roundTo x d = x := by
  have hp : (0 : ℚ) < 10 ^ d := by positivity
  unfold roundTo
  rw [hx]
  have hfloor : ⌊(n : ℚ) + 1 / 2⌋ = n := by
    rw [Int.floor_int_add]
    norm_num
  rw [hfloor]
  field_simp at hx ⊢
  linarith [hx]

/-- Rounding to d decimals keeps a value inside an interval whose endpoints
are exact at d decimals. -/
lemma roundTo_mem (d : ℕ) (lo hi x : ℚ) (nlo nhi : ℤ)
    (hlo : lo * 10 ^ d = (nlo : ℚ)) (hhi : hi * 10 ^ d = (nhi : ℚ))
    (h1 : lo ≤ x) (h2 : x ≤ hi) :
    lo ≤ roundTo x d ∧ roundTo x d ≤ hi := by
  constructor
  · calc lo = roundTo lo d := (roundTo_intValue d nlo hlo).symm
      _ ≤ roundTo x d := roundTo_mono d h1
  · calc roundTo x d ≤ roundTo hi d := roundTo_mono d h2
      _ = hi := roundTo_intValue d nhi hhi

/-- Rounding after clamping stays inside the clamp interval, when the
endpoints are exact at d decimals. -/
lemma roundTo_clamp_mem (d : ℕ) (lo hi x : ℚ) (nlo nhi : ℤ)
    (hlo : lo * 10 ^ d = (nlo : ℚ)) (hhi : hi * 10 ^ d = (nhi : ℚ))
    (hlohi : lo ≤ hi) :
    lo ≤ roundTo (clamp x lo hi) d ∧ roundTo (clamp x lo hi) d ≤ hi :=
  roundTo_mem d lo hi _ nlo nhi hlo hhi (le_clamp x lo hi) (clamp_le x hlohi)

/-- Source: computeHealthScore (telemetry module). -/
def computeHealthScore (p : Point ℚ) : ℚ :=
  let t1 := clamp ((p.t1 - 30) / 80) 0 1
  let t2 := clamp ((p.t2 - 20) / 60) 0 1
  let g1 := clamp ((p.gate1q - 99.2) / 0.7) 0 1
  let g2 := clamp ((p.gate2q - 97.5) / 2.2) 0 1
  let ro := clamp ((2.5 - p.readout) / 2.5) 0 1
  let env := 1 - clamp (((p.temp - 0.015) / 0.02 + p.vibration / 1.8 + p.em / 1.8) / 3) 0 1
  let score := 100 * (0.22 * t1 + 0.22 * t2 + 0.18 * g1 + 0.18 * g2 + 0.12 * ro + 0.08 * env)
  roundTo score 1

/-- The outcomes of the random draws consumed by one nextPoint call: one
standard-normal draw (randn) and one uniform draw (Math.random) per metric. -/
structure Draws where
  nT1 : ℚ
  nT2 : ℚ
  nG1 : ℚ
  nG2 : ℚ
  nRo : ℚ
  nTemp : ℚ
  nVib : ℚ
  nEm : ℚ
  uT1 : ℚ
  uT2 : ℚ
  uG1 : ℚ
  uG2 : ℚ
  uRo : ℚ
  uTemp : ℚ
  uVib : ℚ
  uEm : ℚ
deriving DecidableEq, Repr

/-- Source: nextPoint (telemetry module), with the random draws made explicit
parameters.  Math.abs of a draw is |d|; the sign structure is kept exactly.
The label field calls the formatTimeLabel of the source, whose body
Date.toLocaleTimeString renders the timestamp using the runtime locale and
timezone; that environment-dependent rendering is passed in as the explicit
parameter formatTimeLabel, exactly as the random draws are. -/
def nextPoint (formatTimeLabel : ℚ → String) (prev : Point ℚ) (intensity : ℚ)
    (injectSpike : Bool) (d : Draws) : Point ℚ :=
  let ts := prev.ts + 2000
  let baselineNoise := 1.0 * intensity
  let envPush :=
    0.7 * (prev.temp - 0.012) / 0.004 + 0.55 * (prev.vibration - 0.6) / 0.25 +
      0.55 * (prev.em - 0.55) / 0.25
  let drift := clamp envPush (-2.2) 2.2
  let spike : ℚ := if injectSpike then 1 else 0
  let t1 := clamp (prev.t1 + d.nT1 * 1.6 * baselineNoise - 0.7 * drift - spike * (8 + d.uT1 * 8)) 18 130
  let t2 := clamp (prev.t2 + d.nT2 * 1.4 * baselineNoise - 0.5 * drift - spike * (6 + d.uT2 * 7)) 12 100
  let gate1q := clamp
    (prev.gate1q + d.nG1 * 0.02 * baselineNoise - 0.01 * drift - spike * (0.05 + d.uG1 * 0.07))
    98.8 99.9
  let gate2q := clamp
    (prev.gate2q + d.nG2 * 0.05 * baselineNoise - 0.03 * drift - spike * (0.08 + d.uG2 * 0.14))
    97.2 99.6
  let readout := clamp
    (prev.readout + |d.nRo * 0.12 * baselineNoise| + 0.02 * drift + spike * (0.5 + d.uRo * 0.9))
    0.4 6.5
  let temp := clamp
    (prev.temp + |d.nTemp * 0.0005 * baselineNoise| + 0.0003 * (d.uTemp - 0.35) + spike * 0.004)
    0.006 0.05
  let vibration := clamp
    (prev.vibration + |d.nVib * 0.06 * baselineNoise| + 0.02 * (d.uVib - 0.45) + spike * 0.6)
    0.2 3.0
  let em := clamp
    (prev.em + |d.nEm * 0.06 * baselineNoise| + 0.02 * (d.uEm - 0.45) + spike * 0.55)
    0.2 3.0
  { ts := ts
    label := formatTimeLabel ts
    t1 := roundTo t1 2
    t2 := roundTo t2 2
    gate1q := roundTo gate1q 3
    gate2q := roundTo gate2q 3
    readout := roundTo readout 3
    temp := roundTo temp 5
    vibration := roundTo vibration 3
    em := roundTo em 3 }

/-- Source: the environmental-interference rule of the dashboard alert
evaluation: fires when vibration >= 2.0 or em >= 2.0, severity critical when
vibration >= 2.4 or em >= 2.4, warn otherwise. -/
def envAlert (p : Point ℚ) : Option Severity :=
  if 2.0 ≤ p.vibration ∨ 2.0 ≤ p.em then
    some (if 2.4 ≤ p.vibration ∨ 2.4 ≤ p.em then Severity.critical else Severity.warn)
  else
    none

/-- Source: avg = (arr, k) => arr.reduce((acc, r) => acc + r[k], 0) / Math.max(1, arr.length). -/
def avg (l : List ℚ) : ℚ :=
  l.sum / max 1 (l.length : ℚ)

/-- Source: next.slice(-12), the most recent 12 points of the post-append series. -/
def recentBlock {α : Type} (l : List α) : List α :=
  l.drop (l.length - 12)

/-- Source: next.slice(-24, -12), the 12 points preceding the most recent 12. -/
def precedingBlock {α : Type} (l : List α) : List α :=
  (l.take (l.length - 12)).drop (l.length - 24)

/-- Source: the predictive trend rule of the dashboard alert evaluation,
applied to the series after the new point has been appended. -/
def predictiveAlert (next : List (Point ℚ)) : Option Severity :=
  let recent := recentBlock next
  let prevB := precedingBlock next
  let t1Trend := avg (recent.map fun p => p.t1) - avg (prevB.map fun p => p.t1)
  if 12 ≤ recent.length ∧ 12 ≤ prevB.length ∧ t1Trend < -1.4 then
    some Severity.info
  else
    none

/-- Source: the thresholds state of the dashboard. -/
structure Thresholds where
  driftWarn : ℚ
  driftCritical : ℚ
deriving DecidableEq, Repr

/-- Source: useState initial value for the thresholds. -/
def initialThresholds : Thresholds :=
  { driftWarn := 1.6, driftCritical := 2.2 }

/-- One threshold configuration submission (the onBlur handler of one input). -/
inductive ThresholdUpdate
  | warn (x : ℚ)
  | critical (x : ℚ)
deriving DecidableEq, Repr

/-- Source: the two onBlur handlers; each clamps its own field independently. -/
def applyUpdate (t : Thresholds) : ThresholdUpdate → Thresholds
  | ThresholdUpdate.warn x => { t with driftWarn := clamp x 0.8 4 }
  | ThresholdUpdate.critical x => { t with driftCritical := clamp x 1.0 5 }

/-- A sequence of threshold submissions applied in order. -/
def applyUpdates (t : Thresholds) (l : List ThresholdUpdate) : Thresholds :=
  l.foldl applyUpdate t

/-- Source: DriftState (telemetry module); per-metric EMA baseline, residual
mean and residual variance, here as total maps over the fixed key set. -/
structure DriftState where
  ema : MetricKey → ℝ
  resMean : MetricKey → ℝ
  resVar : MetricKey → ℝ

/-- Source: emaUpdate = (prev, x, alpha) => prev + alpha * (x - prev). -/
def emaUpdate (prev x alpha : ℝ) : ℝ :=
  prev + alpha * (x - prev)

/-- Source: zScore = (residual, mean, stdev) => stdev > 1e-9 ? (residual - mean) / stdev : 0. -/
noncomputable def zScore (residual mean stdev : ℝ) : ℝ :=
  if 1e-9 < stdev then (residual - mean) / stdev else 0

/-- Source: initDriftState. -/
def initDriftState (p : Point ℝ) : DriftState :=
  { ema := p.metric, resMean := fun _ => 0, resVar := fun _ => 1 }

/-- Source: updateDriftState.  The loop body touches only the entries of the
key it is visiting, so it is embedded as a pointwise update. -/
def updateDriftState (state : DriftState) (p : Point ℝ) (alpha : ℝ) : DriftState where
  ema := fun k => emaUpdate (state.ema k) (p.metric k) alpha
  resMean := fun k =>
    let newEma := emaUpdate (state.ema k) (p.metric k) alpha
    let residual := p.metric k - newEma
    emaUpdate (state.resMean k) residual 0.05
  resVar := fun k =>
    let newEma := emaUpdate (state.ema k) (p.metric k) alpha
    let residual := p.metric k - newEma
    let m2 := emaUpdate (state.resMean k) residual 0.05
    emaUpdate (state.resVar k) ((residual - m2) ^ 2) 0.05

/-- Source: the fixed weight table inside driftScore. -/
def weights : MetricKey → ℝ
  | MetricKey.t1 => 1.2
  | MetricKey.t2 => 1.1
  | MetricKey.gate1q => 1.0
  | MetricKey.gate2q => 1.2
  | MetricKey.readout => 1.0
  | MetricKey.temp => 0.8
  | MetricKey.vibration => 0.7
  | MetricKey.em => 0.7

/-- Source: driftScore; the loop accumulating total and wsum over KEYS is
embedded as the corresponding list sums. -/
noncomputable def driftScore (state : DriftState) (p : Point ℝ) : ℝ :=
  let total := (KEYS.map fun k =>
    weights k *
      |zScore (p.metric k - state.ema k) (state.resMean k) (Real.sqrt (state.resVar k))|).sum
  let wsum := (KEYS.map weights).sum
  total / max 1e-9 wsum

/-- A nominal telemetry sample used to instantiate witness statements. -/
def examplePointQ : Point ℚ :=
  { ts := 0, label := "t", t1 := 95, t2 := 70, gate1q := 99.7, gate2q := 99.1,
    readout := 1.5, temp := 0.012, vibration := 0.6, em := 0.55 }

/-- The two trailing 12-blocks both have length at least 12 exactly when the
series has at least 24 points. -/
lemma blocks_length_iff {α : Type} (l : List α) :
    (12 ≤ (recentBlock l).length ∧ 12 ≤ (precedingBlock l).length) ↔ 24 ≤ l.length := by
  simp only [recentBlock, precedingBlock, List.length_drop, List.length_take]
  omega

/-- C8: for every MetricPoint, computeHealthScore returns a value in the
interval from 0 to 100. -/
theorem computeHealthScore_mem_Icc (p : Point ℚ) :
    0 ≤ computeHealthScore p ∧ computeHealthScore p ≤ 100 := by
  simp only [computeHealthScore]
  have h01 : (0 : ℚ) ≤ 1 := by norm_num
  have ht1 := le_clamp ((p.t1 - 30) / 80) (0 : ℚ) 1
  have ht1' := clamp_le ((p.t1 - 30) / 80) h01
  have ht2 := le_clamp ((p.t2 - 20) / 60) (0 : ℚ) 1
  have ht2' := clamp_le ((p.t2 - 20) / 60) h01
  have hg1 := le_clamp ((p.gate1q - 99.2) / 0.7) (0 : ℚ) 1
  have hg1' := clamp_le ((p.gate1q - 99.2) / 0.7) h01
  have hg2 := le_clamp ((p.gate2q - 97.5) / 2.2) (0 : ℚ) 1
  have hg2' := clamp_le ((p.gate2q - 97.5) / 2.2) h01
  have hro := le_clamp ((2.5 - p.readout) / 2.5) (0 : ℚ) 1
  have hro' := clamp_le ((2.5 - p.readout) / 2.5) h01
  have henv := le_clamp (((p.temp - 0.015) / 0.02 + p.vibration / 1.8 + p.em / 1.8) / 3) (0 : ℚ) 1
  have henv' := clamp_le (((p.temp - 0.015) / 0.02 + p.vibration / 1.8 + p.em / 1.8) / 3) h01
  refine roundTo_mem 1 0 100 _ 0 1000 (by norm_num) (by norm_num) ?_ ?_
  · linarith
  · linarith

/-- C4: every metric of the point returned by nextPoint lies within its
glossary clamp bound, for every label rendering, previous point, intensity,
spike flag and outcome of the random draws, including after the final
per-metric rounding. -/
theorem nextPoint_bounds (fmt : ℚ → String) (prev : Point ℚ) (intensity : ℚ)
    (injectSpike : Bool) (d : Draws) :
    (18 ≤ (nextPoint fmt prev intensity injectSpike d).t1 ∧
      (nextPoint fmt prev intensity injectSpike d).t1 ≤ 130) ∧
    (12 ≤ (nextPoint fmt prev intensity injectSpike d).t2 ∧
      (nextPoint fmt prev intensity injectSpike d).t2 ≤ 100) ∧
    (98.8 ≤ (nextPoint fmt prev intensity injectSpike d).gate1q ∧
      (nextPoint fmt prev intensity injectSpike d).gate1q ≤ 99.9) ∧
    (97.2 ≤ (nextPoint fmt prev intensity injectSpike d).gate2q ∧
      (nextPoint fmt prev intensity injectSpike d).gate2q ≤ 99.6) ∧
    (0.4 ≤ (nextPoint fmt prev intensity injectSpike d).readout ∧
      (nextPoint fmt prev intensity injectSpike d).readout ≤ 6.5) ∧
    (0.006 ≤ (nextPoint fmt prev intensity injectSpike d).temp ∧
      (nextPoint fmt prev intensity injectSpike d).temp ≤ 0.05) ∧
    (0.2 ≤ (nextPoint fmt prev intensity injectSpike d).vibration ∧
      (nextPoint fmt prev intensity injectSpike d).vibration ≤ 3.0) ∧
    (0.2 ≤ (nextPoint fmt prev intensity injectSpike d).em ∧
      (nextPoint fmt prev intensity injectSpike d).em ≤ 3.0) := by
  simp only [nextPoint]
  exact ⟨roundTo_clamp_mem 2 18 130 _ 1800 13000 (by norm_num) (by norm_num) (by norm_num),
    roundTo_clamp_mem 2 12 100 _ 1200 10000 (by norm_num) (by norm_num) (by norm_num),
    roundTo_clamp_mem 3 98.8 99.9 _ 98800 99900 (by norm_num) (by norm_num) (by norm_num),
    roundTo_clamp_mem 3 97.2 99.6 _ 97200 99600 (by norm_num) (by norm_num) (by norm_num),
    roundTo_clamp_mem 3 0.4 6.5 _ 400 6500 (by norm_num) (by norm_num) (by norm_num),
    roundTo_clamp_mem 5 0.006 0.05 _ 600 5000 (by norm_num) (by norm_num) (by norm_num),
    roundTo_clamp_mem 3 0.2 3.0 _ 200 3000 (by norm_num) (by norm_num) (by norm_num),
    roundTo_clamp_mem 3 0.2 3.0 _ 200 3000 (by norm_num) (by norm_num) (by norm_num)⟩

/-- The C5 counterexample point: vibration is exactly 2.4 and em is below 2. -/
def envCexPoint : Point ℚ :=
  { ts := 0, label := "", t1 := 95, t2 := 70, gate1q := 99.7, gate2q := 99.1,
    readout := 1.5, temp := 0.012, vibration := 2.4, em := 0.55 }

/-- C5 counterexample: at vibration = 2.4 (which does not strictly exceed 2.4)
the code emits a critical environmental alert, while the claim predicts warn
severity, so the claimed strict-inequality escalation rule is false. -/
theorem envAlert_cex :
    envAlert envCexPoint = some Severity.critical ∧
      ¬ (2.4 < envCexPoint.vibration ∨ 2.4 < envCexPoint.em) := by
  constructor
  · norm_num [envAlert, envCexPoint]
  · norm_num [envCexPoint]

/-- C5 amended: the environmental-interference alert fires iff vibration is at
least 2.0 or em is at least 2.0, and its severity is critical iff additionally
vibration is at least 2.4 or em is at least 2.4 (warn otherwise); the
escalation comparison is non-strict. -/
theorem envAlert_spec (p : Point ℚ) :
    ((envAlert p).isSome ↔ 2.0 ≤ p.vibration ∨ 2.0 ≤ p.em) ∧
    (envAlert p = some Severity.critical ↔
      ((2.0 ≤ p.vibration ∨ 2.0 ≤ p.em) ∧ (2.4 ≤ p.vibration ∨ 2.4 ≤ p.em))) ∧
    (envAlert p = some Severity.warn ↔
      ((2.0 ≤ p.vibration ∨ 2.0 ≤ p.em) ∧ ¬ (2.4 ≤ p.vibration ∨ 2.4 ≤ p.em))) := by
  unfold envAlert
  split_ifs with h1 h2 <;> simp_all

/-- C7 counterexample: submitting driftWarn = 4 and then driftCritical = 1
(each inside its clamp range) leaves the configuration at driftWarn = 4,
driftCritical = 1, violating driftWarn < driftCritical. -/
theorem thresholds_cex :
    (applyUpdates initialThresholds
        [ThresholdUpdate.warn 4, ThresholdUpdate.critical 1]).driftWarn = 4 ∧
    (applyUpdates initialThresholds
        [ThresholdUpdate.warn 4, ThresholdUpdate.critical 1]).driftCritical = 1 ∧
    ¬ (applyUpdates initialThresholds
        [ThresholdUpdate.warn 4, ThresholdUpdate.critical 1]).driftWarn <
      (applyUpdates initialThresholds
        [ThresholdUpdate.warn 4, ThresholdUpdate.critical 1]).driftCritical := by
  refine ⟨?_, ?_, ?_⟩ <;>
    norm_num [applyUpdates, applyUpdate, initialThresholds, clamp]

/-- Range preservation for a single threshold submission. -/
lemma applyUpdate_ranges (t : Thresholds) (u : ThresholdUpdate)
    (h : (0.8 ≤ t.driftWarn ∧ t.driftWarn ≤ 4) ∧
      (1.0 ≤ t.driftCritical ∧ t.driftCritical ≤ 5)) :
    (0.8 ≤ (applyUpdate t u).driftWarn ∧ (applyUpdate t u).driftWarn ≤ 4) ∧
      (1.0 ≤ (applyUpdate t u).driftCritical ∧ (applyUpdate t u).driftCritical ≤ 5) := by
  cases u with
  | warn x =>
      exact ⟨⟨le_clamp x 0.8 4, clamp_le x (by norm_num)⟩, h.2⟩
  | critical x =>
      exact ⟨h.1, ⟨le_clamp x 1.0 5, clamp_le x (by norm_num)⟩⟩

/-- C7 amended: after any sequence of threshold submissions, driftWarn stays
in the clamp range from 0.8 to 4 and driftCritical in the range from 1 to 5;
the relation driftWarn < driftCritical is not enforced by the updates. -/
theorem applyUpdates_ranges (l : List ThresholdUpdate) :
    (0.8 ≤ (applyUpdates initialThresholds l).driftWarn ∧
      (applyUpdates initialThresholds l).driftWarn ≤ 4) ∧
    (1.0 ≤ (applyUpdates initialThresholds l).driftCritical ∧
      (applyUpdates initialThresholds l).driftCritical ≤ 5) := by
  suffices h : ∀ t : Thresholds,
      (0.8 ≤ t.driftWarn ∧ t.driftWarn ≤ 4) ∧
        (1.0 ≤ t.driftCritical ∧ t.driftCritical ≤ 5) →
      (0.8 ≤ (applyUpdates t l).driftWarn ∧ (applyUpdates t l).driftWarn ≤ 4) ∧
        (1.0 ≤ (applyUpdates t l).driftCritical ∧ (applyUpdates t l).driftCritical ≤ 5) by
    exact h initialThresholds (by norm_num [initialThresholds])
  induction l with
  | nil => intro t ht; exact ht
  | cons u rest ih =>
      intro t ht
      have hstep : applyUpdates t (u :: rest) = applyUpdates (applyUpdate t u) rest := by
        simp [applyUpdates]
      rw [hstep]
      exact ih (applyUpdate t u) (applyUpdate_ranges t u ht)

/-- C6: the predictive trend alert fires iff the post-append series has at
least 24 points and the mean of the most recent 12 t1 values is below the mean
of the preceding 12 by strictly more than 1.4; the two blocks are then exactly
the trailing 24 points split 12/12; the alert severity is always info; with
only 20 points of history no alert is emitted. -/
theorem predictiveAlert_spec :
    (∀ next : List (Point ℚ),
        predictiveAlert next = some Severity.info ↔
          24 ≤ next.length ∧
            avg ((recentBlock next).map fun p => p.t1) <
              avg ((precedingBlock next).map fun p => p.t1) - 1.4) ∧
    (∀ next : List (Point ℚ), 24 ≤ next.length →
        (recentBlock next).length = 12 ∧ (precedingBlock next).length = 12 ∧
          precedingBlock next ++ recentBlock next = next.drop (next.length - 24)) ∧
    (∀ (next : List (Point ℚ)) (s : Severity),
        predictiveAlert next = some s → s = Severity.info) ∧
    (∀ next : List (Point ℚ), next.length = 20 → predictiveAlert next = none) := by
  have hfire : ∀ next : List (Point ℚ),
      predictiveAlert next = some Severity.info ↔
        (12 ≤ (recentBlock next).length ∧ 12 ≤ (precedingBlock next).length ∧
          avg ((recentBlock next).map fun p => p.t1) -
            avg ((precedingBlock next).map fun p => p.t1) < -1.4) := by
    intro next
    simp only [predictiveAlert]
    split_ifs with h
    · simpa using h
    · simpa using h
  refine ⟨?_, ?_, ?_, ?_⟩
  · intro next
    rw [hfire next]
    constructor
    · rintro ⟨h1, h2, h3⟩
      exact ⟨(blocks_length_iff next).mp ⟨h1, h2⟩, by linarith⟩
    · rintro ⟨h1, h2⟩
      obtain ⟨ha, hb⟩ := (blocks_length_iff next).mpr h1
      exact ⟨ha, hb, by linarith⟩
  · intro next h
    refine ⟨?_, ?_, ?_⟩
    · simp only [recentBlock, List.length_drop]; omega
    · simp only [precedingBlock, List.length_drop, List.length_take]; omega
    · have htk : next.length - 24 ≤ (next.take (next.length - 12)).length := by
        simp only [List.length_take]; omega
      calc precedingBlock next ++ recentBlock next
          = (next.take (next.length - 12)).drop (next.length - 24) ++
              next.drop (next.length - 12) := rfl
        _ = (next.take (next.length - 12) ++ next.drop (next.length - 12)).drop
              (next.length - 24) := (List.drop_append_of_le_length htk).symm
        _ = next.drop (next.length - 24) := by rw [List.take_append_drop]
  · intro next s h
    simp only [predictiveAlert] at h
    split_ifs at h
    exact (Option.some_inj.mp h).symm
  · intro next h20
    have hneg : ¬ (12 ≤ (recentBlock next).length ∧ 12 ≤ (precedingBlock next).length ∧
        avg ((recentBlock next).map fun p => p.t1) -
          avg ((precedingBlock next).map fun p => p.t1) < -1.4) := by
      rintro ⟨h1, h2, -⟩
      have := (blocks_length_iff next).mp ⟨h1, h2⟩
      omega
    simp only [predictiveAlert]
    rw [if_neg hneg]

/-- C6 witness: with a 20-point history the predictive alert is not emitted. -/
theorem predictiveAlert_spec_witness :
    predictiveAlert (List.replicate 20 examplePointQ) = none :=
  predictiveAlert_spec.2.2.2 (List.replicate 20 examplePointQ) (by simp)

/-- A nominal real-valued telemetry sample used by witness statements. -/
noncomputable def examplePointR : Point ℝ :=
  { ts := 0, label := "t", t1 := 95, t2 := 70, gate1q := 99.7, gate2q := 99.1,
    readout := 1.5, temp := 0.012, vibration := 0.6, em := 0.55 }

/-- The same sample with a different timestamp and label. -/
noncomputable def examplePointR2 : Point ℝ :=
  { ts := 1, label := "u", t1 := 95, t2 := 70, gate1q := 99.7, gate2q := 99.1,
    readout := 1.5, temp := 0.012, vibration := 0.6, em := 0.55 }

/-- A concrete drift state used by witness statements. -/
def exampleState : DriftState :=
  { ema := fun _ => 0, resMean := fun _ => 0, resVar := fun _ => 1 }

/-- C9: scoring a freshly seeded drift state against its own seed point yields
exactly zero: each residual is 0, each resMean is 0, each resVar is 1. -/
theorem driftScore_init_self (p : Point ℝ) : driftScore (initDriftState p) p = 0 := by
  have hz : ∀ k : MetricKey,
      zScore (p.metric k - (initDriftState p).ema k) ((initDriftState p).resMean k)
        (Real.sqrt ((initDriftState p).resVar k)) = 0 := by
    intro k
    show zScore (p.metric k - p.metric k) 0 (Real.sqrt 1) = 0
    rw [Real.sqrt_one]
    unfold zScore
    rw [if_pos (by norm_num)]
    simp
  simp only [driftScore, KEYS, List.map_cons, List.map_nil, List.sum_cons, List.sum_nil, hz]
  simp

/-- C2: the composite drift score is nonnegative whenever the resVar entries of the state
are nonnegative; in this real-number embedding every value is finite,
so the finiteness half of the claim holds by construction. -/
theorem driftScore_nonneg (state : DriftState) (p : Point ℝ)
    (_hvar : ∀ k, 0 ≤ state.resVar k) : 0 ≤ driftScore state p := by
  simp only [driftScore]
  apply div_nonneg
  · apply List.sum_nonneg
    intro x hx
    simp only [List.mem_map] at hx
    obtain ⟨k, -, rfl⟩ := hx
    exact mul_nonneg (by cases k <;> norm_num [weights]) (abs_nonneg _)
  · exact le_trans (by norm_num) (le_max_left (1e-9 : ℝ) _)

/-- C2 witness: the nonnegativity theorem applied at a concrete state (all
resVar entries 1) and point. -/
theorem driftScore_nonneg_witness : 0 ≤ driftScore exampleState examplePointR :=
  driftScore_nonneg exampleState examplePointR (fun _ => zero_le_one)

/-- An EMA step with smoothing 0.05 keeps a nonnegative quantity nonnegative
when the incoming sample is nonnegative. -/
lemma emaUpdate_nonneg {v s : ℝ} (hv : 0 ≤ v) (hs : 0 ≤ s) :
    0 ≤ emaUpdate v s 0.05 := by
  unfold emaUpdate
  nlinarith

/-- C3: initDriftState sets every resVar entry to 1, and updateDriftState
keeps every resVar entry nonnegative whenever the entries of the incoming state
are nonnegative (the new entry mixes the old one with a squared term). -/
theorem resVar_nonneg_invariant (p q : Point ℝ) (state : DriftState) (alpha : ℝ)
    (h : ∀ k, 0 ≤ state.resVar k) :
    (∀ k, (initDriftState p).resVar k = 1) ∧
      (∀ k, 0 ≤ (updateDriftState state q alpha).resVar k) := by
  refine ⟨fun k => rfl, fun k => ?_⟩
  exact emaUpdate_nonneg (h k) (sq_nonneg _)

/-- C3 witness: the invariant theorem applied at a concrete state and point. -/
theorem resVar_nonneg_invariant_witness :
    (∀ k, (initDriftState examplePointR).resVar k = 1) ∧
      (∀ k, 0 ≤ (updateDriftState exampleState examplePointR 0.08).resVar k) :=
  resVar_nonneg_invariant examplePointR examplePointR exampleState 0.08 (fun _ => zero_le_one)

/-- C10: updateDriftState and driftScore read a point only through its eight
metric fields; two points agreeing on them give identical results whatever
their ts and label. -/
theorem drift_depends_only_on_metrics (p q : Point ℝ) (state : DriftState) (alpha : ℝ)
    (h1 : p.t1 = q.t1) (h2 : p.t2 = q.t2) (h3 : p.gate1q = q.gate1q)
    (h4 : p.gate2q = q.gate2q) (h5 : p.readout = q.readout) (h6 : p.temp = q.temp)
    (h7 : p.vibration = q.vibration) (h8 : p.em = q.em) :
    updateDriftState state p alpha = updateDriftState state q alpha ∧
      driftScore state p = driftScore state q := by
  have hm : p.metric = q.metric := by
    funext k
    cases k <;> assumption
  constructor
  · simp only [updateDriftState, hm]
  · simp only [driftScore, hm]

/-- C10 witness: two concrete points differing only in ts and label give the
same updated state and the same score. -/
theorem drift_depends_only_on_metrics_witness :
    updateDriftState exampleState examplePointR 0.08 =
        updateDriftState exampleState examplePointR2 0.08 ∧
      driftScore exampleState examplePointR = driftScore exampleState examplePointR2 :=
  drift_depends_only_on_metrics examplePointR examplePointR2 exampleState 0.08
    rfl rfl rfl rfl rfl rfl rfl rfl

/-- The per-metric z actually computed by driftScore: the running residual
mean is subtracted from the residual, and the degeneracy cutoff compares the
standard deviation sqrt(resVar) against 1e-9. -/
noncomputable def metricZ (state : DriftState) (p : Point ℝ) (k : MetricKey) : ℝ :=
  if 1e-9 < Real.sqrt (state.resVar k) then
    |p.metric k - state.ema k - state.resMean k| / Real.sqrt (state.resVar k)
  else 0

/-- Transcription of the claim C1 scoring formula, stated from the claim text
for comparison with driftScore: per metric z = |residual| / sqrt(resVar) with
residual = x - ema, z forced to 0 when resVar < 1e-9, aggregated as the sum of
the eight weighted z values divided by the sum of the eight weights. -/
noncomputable def claimDriftScore (state : DriftState) (p : Point ℝ) : ℝ :=
  (KEYS.map fun k =>
    weights k *
      (if state.resVar k < 1e-9 then 0
       else |p.metric k - state.ema k| / Real.sqrt (state.resVar k))).sum /
    (KEYS.map weights).sum

/-- The C1 counterexample state: at key t1 the running residual mean is 1
(which the formula of the claim ignores); at key t2 the residual variance is 1e-12,
below the 1e-9 variance cutoff of the claim yet with standard deviation 1e-6
above the 1e-9 stdev cutoff of the code. -/
noncomputable def cexState : DriftState where
  ema := fun _ => 0
  resMean := fun k =>
    match k with
    | MetricKey.t1 => 1
    | _ => 0
  resVar := fun k =>
    match k with
    | MetricKey.t2 => 1e-12
    | _ => 1

/-- The C1 counterexample point: metric t2 reads 1e-6, all other metrics 0. -/
noncomputable def cexPoint : Point ℝ :=
  { ts := 0, label := "", t1 := 0, t2 := 1e-6, gate1q := 0, gate2q := 0,
    readout := 0, temp := 0, vibration := 0, em := 0 }

/-- C1 counterexample: at cexState and cexPoint the code computes the score
2.3 / 7.7 (the t1 term sees the nonzero residual mean, the t2 term is not
degenerate for the code), while the formula of the claim yields 0, so the claimed
per-metric formula is false. -/
theorem driftScore_claim_cex :
    driftScore cexState cexPoint ≠ claimDriftScore cexState cexPoint := by
  have hsqrt12 : Real.sqrt 1e-12 = 1e-6 := by
    rw [show (1e-12 : ℝ) = (1e-6 : ℝ) ^ 2 by norm_num]
    exact Real.sqrt_sq (by norm_num)
  have hcode : driftScore cexState cexPoint = 2.3 / 7.7 := by
    simp only [driftScore, KEYS, List.map_cons, List.map_nil, List.sum_cons, List.sum_nil,
      cexState, cexPoint, Point.metric, zScore, weights]
    simp only [hsqrt12, Real.sqrt_one]
    norm_num
  have hclaim : claimDriftScore cexState cexPoint = 0 := by
    simp only [claimDriftScore, KEYS, List.map_cons, List.map_nil, List.sum_cons, List.sum_nil,
      cexState, cexPoint, Point.metric, weights]
    simp only [hsqrt12, Real.sqrt_one]
    norm_num
  rw [hcode, hclaim]
  norm_num

/-- C1 amended: the composite drift score is computed per metric as
z = |x - ema - resMean| / sqrt(resVar) against the pre-update baseline, with z
forced to 0 when sqrt(resVar) is at most 1e-9, and the score equals the sum of
the eight weighted z terms divided by the sum of the eight fixed weights. -/
theorem driftScore_formula (state : DriftState) (p : Point ℝ) :
    driftScore state p =
      (1.2 * metricZ state p MetricKey.t1 + 1.1 * metricZ state p MetricKey.t2 +
        1.0 * metricZ state p MetricKey.gate1q + 1.2 * metricZ state p MetricKey.gate2q +
        1.0 * metricZ state p MetricKey.readout + 0.8 * metricZ state p MetricKey.temp +
        0.7 * metricZ state p MetricKey.vibration + 0.7 * metricZ state p MetricKey.em) /
      (1.2 + 1.1 + 1.0 + 1.2 + 1.0 + 0.8 + 0.7 + 0.7) := by
  have habs : ∀ k, |zScore (p.metric k - state.ema k) (state.resMean k)
      (Real.sqrt (state.resVar k))| = metricZ state p k := by
    intro k
    unfold zScore metricZ
    split_ifs with h
    · rw [abs_div, abs_of_nonneg (Real.sqrt_nonneg _)]
    · simp
  simp only [driftScore, KEYS, List.map_cons, List.map_nil, List.sum_cons, List.sum_nil,
    habs, weights]
  rw [max_eq_right (by norm_num)]
  ring

end Quantana
